import Mathlib

/-!
# Verification of the derive-builder options-resolution pipeline

Shallow embedding of the options-resolution core of the `rust-derive-builder`
repository.  The repository contains two evolving option-resolution designs:

* `V2` embeds `derive_builder_macro/src/options/{mod,struct_options,field_options}.rs`
  (the current, darling-based schema);
* `V1` embeds `derive_builder/src/options/field_options.rs`
  (the legacy schema).

Rust panics (`panic!`, `.expect`) that abort a single macro expansion are
modelled as `Except ExpandError`; each `ExpandError` constructor corresponds
to one panic site in the source.  The external expression parser
(`str::parse::<Block>` from `syn`) is an out-of-scope collaborator and is
passed in as a function `String → Option Block`.
-/

namespace DeriveBuilder

/-- Identifiers (`syn::Ident`) are modelled by their textual content. -/
abbrev Ident := String

/-- Field types (`syn::Ty`) are opaque syntactic fragments. -/
abbrev Ty := String

/-- Generic parameter lists (`syn::Generics`) are opaque syntactic fragments. -/
abbrev Generics := String

/-- Paths (`syn::Path`), e.g. a validation-function path, are opaque fragments. -/
abbrev Path := String

/-- An attribute (`syn::Attribute`): its path (e.g. `allow`, `cfg`, `doc`,
`serde`) and the rest of its tokens, kept opaque. -/
structure Attribute where
  path : Ident
  rest : String
deriving DecidableEq, Repr

/-- `syn::Visibility`, restricted to the two variants the options code
constructs: `Public` (the static `VIS_PUBLIC`) and `Inherited` (the static
`VIS_INHERITED`, which is Rust's private-to-the-module visibility; the
legacy `private` word resolves to it). -/
inductive Visibility where
  | Public
  | Inherited
deriving DecidableEq, Repr

/-- `derive_builder_core::Bindings`: whether generated code refers to libstd
or libcore.  `Bindings::NoStd` and `Bindings::Std` are the two constants the
options code uses; `no_std` is the stored flag read by the legacy resolver. -/
structure Bindings where
  no_std : Bool
deriving DecidableEq, Repr

/-- `Bindings::Std` — the `Default::default()` value. -/
def Bindings.Std : Bindings := ⟨false⟩

/-- `Bindings::NoStd`. -/
def Bindings.NoStd : Bindings := ⟨true⟩

instance : Inhabited Bindings := ⟨Bindings.Std⟩

/-- `derive_builder_core::BuilderPattern`: how setters take and return `self`. -/
inductive BuilderPattern where
  | Owned
  | Mutable
  | Immutable
deriving DecidableEq, Repr

instance : Inhabited BuilderPattern := ⟨BuilderPattern.Mutable⟩

/-- `derive_builder_core::DeprecationNotes`: an accumulating list of notice
strings (`push` appends). -/
abbrev DeprecationNotes := List String

/-- `derive_builder_core::Block`: a parsed expression/block fragment, modelled
by the text it was parsed from. -/
structure Block where
  text : String
deriving DecidableEq, Repr

/-- `darling::util::Override`: either the bare word (`Inherit`) or the word
with an argument list (`Explicit`). -/
inductive Override (α : Type) where
  | Explicit (val : α)
  | Inherit
deriving DecidableEq, Repr

/-- One constructor per panic site of the options-resolution core.  A panic
aborts the single macro expansion (spec §7). -/
inductive ExpandError where
  /-- `panic!("A field cannot be both private and public")` in
  `LegacyVis::to_visibility`. -/
  | conflictingVis
  /-- `panic!(r#"Empty default expressions `default=""` are not supported."#)`
  in `DefaultExpression::parse_block` (both designs). -/
  | emptyDefaultExpr
  /-- `.expect(&format!("Couldn't parse default expression `…`"))` in
  `DefaultExpression::parse_block` (both designs); carries the full message. -/
  | defaultParse (msg : String)
  /-- `.expect("Field-level builder pattern should either have been set or
  inherited")` in `FieldOptions::as_setter` / `as_initializer`. -/
  | missingPattern
deriving DecidableEq, Repr

/-- A `DefaultExpression` can be either explicit or refer to the canonical
trait (`options/mod.rs` in the macro crate; the legacy crate's enum has the
same two variants, as witnessed by the `match` arms in its `parse_block`). -/
inductive DefaultExpression where
  | Explicit (s : String)
  | Trait
deriving DecidableEq, Repr

/-- Rust's `{:?}` debug rendering of a `DefaultExpression`, as interpolated
into the parse-failure panic message. -/
def DefaultExpression.reprDebug : DefaultExpression → String
  | .Explicit s => "Explicit(\"" ++ s ++ "\")"
  | .Trait => "Trait"

/-- `LegacyVis::to_visibility` (macro crate, `options/mod.rs`): reconcile the
two legacy presence markers into an optional visibility override.  Shared by
struct-level and field-level resolution via the `LegacyVis` trait's default
method; here parametrised over the two marker sources. -/
def LegacyVis.to_visibility (declaredPublic declaredPrivate : Bool) :
    Except ExpandError (Option Visibility) :=
  match declaredPublic, declaredPrivate with
  | true, true => .error .conflictingVis
  | true, false => .ok (some .Public)
  | false, true => .ok (some .Inherited)
  | false, false => .ok none

namespace V2

/-!
## Current design: `derive_builder_macro/src/options/`

Rust field names `prefix`, `public` and `private` are Lean keywords or
reserved; they are embedded as `pfx`, `public_marker` and `private_marker`.
-/

/-- Field-level `SetterOptions` (`field_options.rs`): the payload of
`#[builder(setter(...))]` on a field. -/
structure SetterOptions where
  name : Option Ident := none
  /-- Source name: `prefix`. -/
  pfx : Option Ident := none
  skip : Option Bool := none
  into : Option Bool := none
deriving DecidableEq, Repr

instance : Inhabited SetterOptions := ⟨{}⟩

/-- Struct-level `SetterOptions` (`struct_options.rs`): the payload of
`#[builder(setter(...))]` on the struct. -/
structure StructSetterOptions where
  /-- Source name: `prefix`. -/
  pfx : Option Ident := none
  into : Bool := false
  skip : Bool := false
  /-- Source name: `private`. -/
  private_marker : Option Unit := none
  /-- Source name: `public`. -/
  public_marker : Option Unit := none
deriving DecidableEq, Repr

/-- `BuildFnOptions` (`struct_options.rs`): struct-level control over the
generated build function.  `Default` gives `name = "build"`. -/
structure BuildFnOptions where
  skip : Bool := false
  name : Ident := "build"
  validate : Option Path := none
deriving DecidableEq, Repr

/-- `StructOptions` (`struct_options.rs`): container for struct-level options
parsed from the derive input. -/
structure StructOptions where
  ident : Ident
  vis : Visibility := .Inherited
  generics : Generics := ""
  attrs : List Attribute := []
  pattern : BuilderPattern := default
  derive : List Ident := []
  name : Option Ident := none
  build_fn : BuildFnOptions := {}
  setter : Option StructSetterOptions := none
  try_setter : Option Bool := none
  default : Option DefaultExpression := none
  /-- Source name: `public`. -/
  public_marker : Option Unit := none
  /-- Source name: `private`. -/
  private_marker : Option Unit := none
  field : Option Visibility := none
  bindings : Bindings := Bindings.Std
  deprecation_notes : DeprecationNotes := []
deriving DecidableEq, Repr

/-- `FieldOptions` (`field_options.rs`): options for one builder field. -/
structure FieldOptions where
  ident : Ident
  ty : Ty
  vis : Visibility := .Inherited
  attrs : List Attribute := []
  setter : SetterOptions := {}
  try_setter : Option Bool := none
  default : Option DefaultExpression := none
  pattern : Option BuilderPattern := none
  field : Option Visibility := none
  /-- Source name: `private`. -/
  private_marker : Option Unit := none
  /-- Source name: `public`. -/
  public_marker : Option Unit := none
  bindings : Bindings := Bindings.Std
  deprecation_notes : DeprecationNotes := []
  use_default_struct : Bool := false
deriving DecidableEq, Repr

/-- The `Builder` synthesis-input record (`derive_builder_core`), as populated
by `StructOptions::as_builder`; `fields` and `functions` are opaque emitted
fragments. -/
structure Builder where
  enabled : Bool
  ident : Ident
  pattern : BuilderPattern
  derives : List Ident
  generics : Option Generics
  visibility : Visibility
  fields : List String
  functions : List String
  doc_comment : Option String
  bindings : Bindings
  deprecation_notes : DeprecationNotes
deriving DecidableEq, Repr

/-- The `BuilderField` synthesis-input record, as populated by
`FieldOptions::as_builder_field`. -/
structure BuilderField where
  field_ident : Ident
  field_type : Ty
  setter_enabled : Bool
  field_visibility : Visibility
  attrs : List Attribute
  bindings : Bindings
deriving DecidableEq, Repr

/-- The `Setter` synthesis-input record, as populated by
`FieldOptions::as_setter`. -/
structure Setter where
  enabled : Bool
  try_setter : Bool
  visibility : Visibility
  pattern : BuilderPattern
  attrs : List Attribute
  ident : Ident
  field_ident : Ident
  field_type : Ty
  generic_into : Bool
  deprecation_notes : DeprecationNotes
  bindings : Bindings
deriving DecidableEq, Repr

/-- The `Initializer` synthesis-input record, as populated by
`FieldOptions::as_initializer`. -/
structure Initializer where
  setter_enabled : Bool
  field_ident : Ident
  builder_pattern : BuilderPattern
  default_value : Option Block
  use_default_struct : Bool
  bindings : Bindings
deriving DecidableEq, Repr

/-- The `match` computing `expr` inside `DefaultExpression::parse_block`
(macro crate, `options/mod.rs`): explicit text (rejecting the empty string)
or the hardcoded re-export path for the trait sentinel. -/
def DefaultExpression.expr_text : DefaultExpression → Except ExpandError String
  | .Explicit s =>
    if s.isEmpty then .error .emptyDefaultExpr
    else .ok s
  | .Trait => .ok "::derive_builder::export::Default::default()"

/-- `DefaultExpression::parse_block` (macro crate, `options/mod.rs`):
compute the expression text, then parse it with the external `syn` parser
`pe`, panicking with a message naming the expression on parse failure. -/
def DefaultExpression.parse_block (pe : String → Option Block)
    (e : DefaultExpression) : Except ExpandError Block :=
  match DefaultExpression.expr_text e with
  | .error err => .error err
  | .ok s =>
    match pe s with
    | some b => .ok b
    | none =>
      .error (.defaultParse
        ("Couldn't parse default expression `" ++ e.reprDebug ++ "`"))

/-- `SetterOptions::with_defaults` (field-level, `field_options.rs`):
synthesize a prefixed name from the local prefix, then inherit `into` and,
if the name is still unset, synthesize it from the parent prefix. -/
def SetterOptions.with_defaults (s : SetterOptions)
    (parent : Option StructSetterOptions) (field_ident : Ident) :
    SetterOptions :=
  let s :=
    if s.name.isNone then
      match s.pfx with
      | some pre => { s with name := some (pre ++ "_" ++ field_ident) }
      | none => s
    else s
  match parent with
  | some p =>
    let s := if s.into.isNone then { s with into := some p.into } else s
    if s.name.isNone then
      match p.pfx with
      | some pre => { s with name := some (pre ++ "_" ++ field_ident) }
      | none => s
    else s
  | none => s

/-- `SetterOptions::presence_enables` (`field_options.rs`): the presence of
the `setter` word should enable a setter even if the struct level says to
skip. -/
def SetterOptions.presence_enables (s : SetterOptions) : SetterOptions :=
  if s.skip.isNone then { s with skip := some false } else s

/-- `SetterOptions::from_override` (`field_options.rs`): convert from the
`setter` word to `SetterOptions`. -/
def SetterOptions.from_override (v : Override SetterOptions) : SetterOptions :=
  match v with
  | .Explicit val => val.presence_enables
  | .Inherit => { skip := some false }

/-- `FieldOptions::with_defaults` (`field_options.rs`): applies struct-level
defaults to the field-level options; the Rust in-place mutation is embedded
as explicit state passing. -/
def FieldOptions.with_defaults (f : FieldOptions) (parent : StructOptions) :
    FieldOptions :=
  let f :=
    if f.try_setter.isNone && parent.try_setter.isSome then
      { f with try_setter := parent.try_setter }
    else f
  let f :=
    if f.default.isNone && parent.default.isSome then
      { f with use_default_struct := true }
    else f
  let f :=
    if f.pattern.isNone then { f with pattern := some parent.pattern } else f
  let f := { f with setter := f.setter.with_defaults parent.setter f.ident }
  { f with bindings := parent.bindings }

/-- `FieldOptions::setter_name` (`field_options.rs`): the setter name; falls
back to the field name when no override is present. -/
def FieldOptions.setter_name (f : FieldOptions) : Ident :=
  f.setter.name.getD f.ident

/-- `FieldOptions::as_builder_field` (`field_options.rs`). -/
def FieldOptions.as_builder_field (f : FieldOptions) : BuilderField :=
  { field_ident := f.ident
    field_type := f.ty
    setter_enabled := !(f.setter.skip.getD false)
    field_visibility := f.field.getD f.vis
    attrs := f.attrs
    bindings := f.bindings }

/-- `FieldOptions::as_setter` (`field_options.rs`).  The `visibility` field's
`to_visibility()` call is evaluated before the `pattern` field's `.expect`,
matching Rust's struct-literal evaluation order. -/
def FieldOptions.as_setter (f : FieldOptions) : Except ExpandError Setter :=
  match LegacyVis.to_visibility f.public_marker.isSome f.private_marker.isSome with
  | .error e => .error e
  | .ok ov =>
    match f.pattern with
    | none => .error .missingPattern
    | some pat =>
      .ok { enabled := !(f.setter.skip.getD false)
            try_setter := f.try_setter.getD false
            visibility := ov.getD f.vis
            pattern := pat
            attrs := f.attrs
            ident := f.setter_name
            field_ident := f.ident
            field_type := f.ty
            generic_into := f.setter.into.getD false
            deprecation_notes := f.deprecation_notes
            bindings := f.bindings }

/-- `FieldOptions::as_initializer` (`field_options.rs`).  The `pattern`
field's `.expect` is evaluated before the `default_value` field's
`parse_block`, matching Rust's struct-literal evaluation order. -/
def FieldOptions.as_initializer (pe : String → Option Block)
    (f : FieldOptions) : Except ExpandError Initializer :=
  match f.pattern with
  | none => .error .missingPattern
  | some pat =>
    match f.default with
    | none =>
      .ok { setter_enabled := !(f.setter.skip.getD false)
            field_ident := f.ident
            builder_pattern := pat
            default_value := none
            use_default_struct := f.use_default_struct
            bindings := f.bindings }
    | some d =>
      match DefaultExpression.parse_block pe d with
      | .error err => .error err
      | .ok b =>
        .ok { setter_enabled := !(f.setter.skip.getD false)
              field_ident := f.ident
              builder_pattern := pat
              default_value := some b
              use_default_struct := f.use_default_struct
              bindings := f.bindings }

/-- `StructOptions::builder_ident` (`struct_options.rs`): the explicit
override name, else the declaration identifier with the `Builder` suffix. -/
def StructOptions.builder_ident (s : StructOptions) : Ident :=
  s.name.getD (s.ident ++ "Builder")

/-- `StructOptions::as_builder` (`struct_options.rs`).  Note: the `bindings`
field is populated with `Default::default()`, and the `field` option is not
consulted. -/
def StructOptions.as_builder (s : StructOptions) : Except ExpandError Builder :=
  match LegacyVis.to_visibility s.public_marker.isSome s.private_marker.isSome with
  | .error e => .error e
  | .ok ov =>
    .ok { enabled := true
          ident := s.builder_ident
          pattern := s.pattern
          derives := s.derive
          generics := some s.generics
          visibility := ov.getD s.vis
          fields := []
          functions := []
          doc_comment := none
          bindings := Bindings.Std
          deprecation_notes := s.deprecation_notes }

/-- `Locate::locate` for `StructOptions` (`struct_options.rs`). -/
def StructOptions.locate (s : StructOptions) : String :=
  "on struct " ++ s.ident

/-- First deprecation notice of `StructOptions::finish`, with the location
already interpolated. -/
def struct_default_notice (location : String) : String :=
  "the meaning of `#[builder(default)]` on the struct level (found "
    ++ location ++
    ") will change in the next version (see https://github.com/colin-kiegel/rust-derive-builder/issues/61 for more details). To squelch this message and adopt the new behavior now, compile `derive_builder` with `--features \"struct_default\"`."

/-- Second deprecation notice of `StructOptions::finish`, with the location
already interpolated. -/
def private_fields_notice (location : String) : String :=
  "Builder fields will be private by default starting in the next version. (see https://github.com/colin-kiegel/rust-derive-builder/issues/86 for more details). To squelch this message and adopt the new behavior now, compile `derive_builder` with `--features \"private_fields\"` or add `field(<vis>)` to the builder attribute on the struct. (Found "
    ++ location ++ ")"

/-- `StructOptions::finish` (`struct_options.rs`): scan options for
deprecation warnings.  The two `cfg!(feature = ...)` compile-time flags are
passed in as parameters. -/
def StructOptions.finish (feature_struct_default feature_private_fields : Bool)
    (s : StructOptions) : StructOptions :=
  let s :=
    if !feature_struct_default && s.default.isSome then
      { s with deprecation_notes :=
          s.deprecation_notes ++ [struct_default_notice s.locate] }
    else s
  if !feature_private_fields && s.field.isNone then
    { s with deprecation_notes :=
        s.deprecation_notes ++ [private_fields_notice s.locate] }
  else s

end V2

namespace V1

/-!
## Legacy design: `derive_builder/src/options/field_options.rs`

`FieldOptions` here is the already-resolved record; its `as_setter` filters
forwarded attributes through `should_forward_attr`, whose definition lives in
`derive_builder/src/options/mod.rs` (not part of the provided sources) and is
therefore modelled from the spec.
-/

/-- Modelled from the spec: `should_forward_attr` from
`derive_builder/src/options/mod.rs` is not among the provided sources.  Per
spec §6/§8, the forwardable attribute categories are conditional-compilation
markers (`cfg`), allow-lint markers (`allow`) and documentation comments
(`doc`); all other attributes are not forwarded to the setter.  (Its Rust
first argument, a defaulted forwarding configuration, is fixed to that
default here.) -/
def should_forward_attr (a : Attribute) : Bool :=
  a.path == "allow" || a.path == "cfg" || a.path == "doc"

/-- Legacy `FieldOptions` (`derive_builder/src/options/field_options.rs`):
fully resolved per-field options consumed by the projections. -/
structure FieldOptions where
  setter_enabled : Bool
  builder_pattern : BuilderPattern
  setter_ident : Ident
  setter_visibility : Visibility
  field_visibility : Visibility
  default_expression : Option DefaultExpression
  use_default_struct : Bool
  field_ident : Ident
  field_type : Ty
  setter_into : Bool
  deprecation_notes : DeprecationNotes
  attrs : List Attribute
  bindings : Bindings
  try_setter : Bool
deriving DecidableEq, Repr

/-- The `match` computing `expr` inside the legacy
`DefaultExpression::parse_block`: explicit text (rejecting the empty string)
or a hardcoded std/core path chosen by the `no_std` flag. -/
def DefaultExpression.expr_text (no_std : Bool) :
    DefaultExpression → Except ExpandError String
  | .Explicit s =>
    if s.isEmpty then .error .emptyDefaultExpr
    else .ok s
  | .Trait =>
    .ok (if no_std then "::core::default::Default::default()"
         else "::std::default::Default::default()")

/-- Legacy `DefaultExpression::parse_block`
(`derive_builder/src/options/field_options.rs`): compute the expression text
for the given `no_std` flag, then parse it with the external `syn` parser
`pe`, panicking with a message naming the expression on parse failure. -/
def DefaultExpression.parse_block (pe : String → Option Block) (no_std : Bool)
    (e : DefaultExpression) : Except ExpandError Block :=
  match DefaultExpression.expr_text no_std e with
  | .error err => .error err
  | .ok s =>
    match pe s with
    | some b => .ok b
    | none =>
      .error (.defaultParse
        ("Couldn't parse default expression `" ++ e.reprDebug ++ "`"))

/-- Legacy `FieldOptions::as_setter`: forwards only `allow`, `cfg` and `doc`
attributes to the setter, for consistency across setters and fields. -/
def FieldOptions.as_setter (f : FieldOptions) : V2.Setter :=
  { enabled := f.setter_enabled
    try_setter := f.try_setter
    visibility := f.setter_visibility
    pattern := f.builder_pattern
    attrs := f.attrs.filter should_forward_attr
    ident := f.setter_ident
    field_ident := f.field_ident
    field_type := f.field_type
    generic_into := f.setter_into
    deprecation_notes := f.deprecation_notes
    bindings := f.bindings }

/-- Legacy `FieldOptions::as_initializer`. -/
def FieldOptions.as_initializer (pe : String → Option Block)
    (f : FieldOptions) : Except ExpandError V2.Initializer :=
  match f.default_expression with
  | none =>
    .ok { setter_enabled := f.setter_enabled
          field_ident := f.field_ident
          builder_pattern := f.builder_pattern
          default_value := none
          use_default_struct := f.use_default_struct
          bindings := f.bindings }
  | some d =>
    match DefaultExpression.parse_block pe f.bindings.no_std d with
    | .error err => .error err
    | .ok b =>
      .ok { setter_enabled := f.setter_enabled
            field_ident := f.field_ident
            builder_pattern := f.builder_pattern
            default_value := some b
            use_default_struct := f.use_default_struct
            bindings := f.bindings }

/-- Legacy `FieldOptions::as_builder_field`: passes all carried attributes
through unfiltered. -/
def FieldOptions.as_builder_field (f : FieldOptions) : V2.BuilderField :=
  { field_ident := f.field_ident
    field_type := f.field_type
    setter_enabled := f.setter_enabled
    field_visibility := f.field_visibility
    attrs := f.attrs
    bindings := f.bindings }

end V1

/-!
## Helper lemmas
-/

/-- `FieldOptions::with_defaults` written as a single record update. -/
theorem with_defaults_eq (f : V2.FieldOptions) (p : V2.StructOptions) :
    f.with_defaults p =
      { f with
        try_setter :=
          if f.try_setter.isNone && p.try_setter.isSome then p.try_setter
          else f.try_setter
        use_default_struct :=
          if f.default.isNone && p.default.isSome then true
          else f.use_default_struct
        pattern := if f.pattern.isNone then some p.pattern else f.pattern
        setter := f.setter.with_defaults p.setter f.ident
        bindings := p.bindings } := by
  cases hts : f.try_setter <;> cases hpts : p.try_setter <;>
    cases hd : f.default <;> cases hpd : p.default <;>
    cases hpat : f.pattern <;>
    simp [V2.FieldOptions.with_defaults, hts, hpts, hd, hpd, hpat]

/-- The `name` computed by the field-level `SetterOptions::with_defaults`. -/
theorem setter_with_defaults_name (s : V2.SetterOptions)
    (p : Option V2.StructSetterOptions) (i : Ident) :
    (s.with_defaults p i).name =
      match s.name, s.pfx, p with
      | some n, _, _ => some n
      | none, some pre, _ => some (pre ++ "_" ++ i)
      | none, none, some ps =>
        (match ps.pfx with
         | some pre => some (pre ++ "_" ++ i)
         | none => none)
      | none, none, none => none := by
  unfold V2.SetterOptions.with_defaults
  cases p with
  | none => cases hn : s.name <;> cases hp : s.pfx <;> simp [hn, hp]
  | some ps =>
    cases hn : s.name <;> cases hp : s.pfx <;> cases hi : s.into <;>
      cases hpp : ps.pfx <;> simp [hn, hp, hi, hpp]

/-- `LegacyVis.to_visibility` only ever fails with the visibility-conflict
error. -/
theorem to_visibility_error (a b : Bool) (e : ExpandError)
    (h : LegacyVis.to_visibility a b = .error e) : e = .conflictingVis := by
  cases a <;> cases b <;> simp_all [LegacyVis.to_visibility]

/-- Neither design's `parse_block` can fail with the missing-pattern error. -/
theorem parse_block_no_missing (pe : String → Option Block)
    (e : DefaultExpression) :
    V2.DefaultExpression.parse_block pe e ≠ .error .missingPattern := by
  unfold V2.DefaultExpression.parse_block V2.DefaultExpression.expr_text
  cases e with
  | Explicit s =>
    by_cases h : s.isEmpty = true
    · simp [h]
    · simp [h]
      cases hp : pe s <;> simp [hp]
  | Trait =>
    cases hp : pe "::derive_builder::export::Default::default()" <;> simp [hp]

/-!
## Claims
-/

/-- C3: the final setter name resolved after inheritance is the explicit
name override if given; else the local prefix joined to the field identifier
with an underscore; else, when a parent struct-level setter block with a
prefix exists, the parent prefix joined to the field identifier; else the
bare field identifier.  In particular the local prefix beats the parent
prefix. -/
theorem setter_name_precedence (f : V2.FieldOptions) (p : V2.StructOptions) :
    V2.FieldOptions.setter_name (f.with_defaults p) =
      (match f.setter.name with
       | some n => n
       | none =>
         match f.setter.pfx with
         | some pre => pre ++ "_" ++ f.ident
         | none =>
           match p.setter with
           | some ps =>
             (match ps.pfx with
              | some pre => pre ++ "_" ++ f.ident
              | none => f.ident)
           | none => f.ident) := by
  unfold V2.FieldOptions.setter_name
  rw [with_defaults_eq]
  show (f.setter.with_defaults p.setter f.ident).name.getD f.ident = _
  rw [setter_with_defaults_name]
  cases f.setter.name <;> cases f.setter.pfx <;> cases hp : p.setter <;>
    simp
  · rename_i ps
    cases ps.pfx <;> simp

/-- C4: after `FieldOptions::with_defaults`, the try-setter flag equals the
prior local value when set and the parent's otherwise; `use_default_struct`
holds exactly when there is no local default and the parent declares one;
the construction pattern equals the prior local value when set and the
parent's pattern otherwise; and the bindings mode is copied verbatim from
the parent. -/
theorem inheritance_step (f : V2.FieldOptions) (p : V2.StructOptions)
    (h : f.use_default_struct = false) :
    (f.with_defaults p).try_setter =
      (if f.try_setter.isSome then f.try_setter else p.try_setter)
    ∧ ((f.with_defaults p).use_default_struct = true ↔
        (f.default = none ∧ p.default.isSome = true))
    ∧ (f.with_defaults p).pattern = some (f.pattern.getD p.pattern)
    ∧ (f.with_defaults p).bindings = p.bindings := by
  rw [with_defaults_eq]
  refine ⟨?_, ?_, ?_, rfl⟩
  · cases f.try_setter <;> cases p.try_setter <;> simp
  · cases hd : f.default <;> cases hp : p.default <;> simp [h]
  · cases f.pattern <;> simp

/-- C4 witness: `with_defaults` at a concrete field and parent. -/
theorem inheritance_step_witness :
    (V2.FieldOptions.with_defaults { ident := "foo", ty := "u8" }
        { ident := "Lorem", try_setter := some true,
          default := some .Trait, pattern := .Owned,
          bindings := Bindings.NoStd }).try_setter =
      (if (Option.none (α := Bool)).isSome then none else some true)
    ∧ ((V2.FieldOptions.with_defaults { ident := "foo", ty := "u8" }
        { ident := "Lorem", try_setter := some true,
          default := some .Trait, pattern := .Owned,
          bindings := Bindings.NoStd }).use_default_struct = true ↔
        ((Option.none (α := DefaultExpression)) = none ∧
          (Option.some DefaultExpression.Trait).isSome = true))
    ∧ (V2.FieldOptions.with_defaults { ident := "foo", ty := "u8" }
        { ident := "Lorem", try_setter := some true,
          default := some .Trait, pattern := .Owned,
          bindings := Bindings.NoStd }).pattern =
      some ((Option.none (α := BuilderPattern)).getD .Owned)
    ∧ (V2.FieldOptions.with_defaults { ident := "foo", ty := "u8" }
        { ident := "Lorem", try_setter := some true,
          default := some .Trait, pattern := .Owned,
          bindings := Bindings.NoStd }).bindings = Bindings.NoStd :=
  inheritance_step { ident := "foo", ty := "u8" }
    { ident := "Lorem", try_setter := some true, default := some .Trait,
      pattern := .Owned, bindings := Bindings.NoStd } rfl

/-- C5: `SetterOptions::from_override` always produces a definite skip flag,
which is `true` only when `skip` was explicitly set `true` inside the block;
the bare `setter` word yields `skip = some false`. -/
theorem setter_presence_enables (v : Override V2.SetterOptions) :
    ((V2.SetterOptions.from_override v).skip = some true
      ∨ (V2.SetterOptions.from_override v).skip = some false)
    ∧ ((V2.SetterOptions.from_override v).skip = some true ↔
        ∃ s, v = Override.Explicit s ∧ s.skip = some true)
    ∧ (V2.SetterOptions.from_override Override.Inherit).skip = some false := by
  unfold V2.SetterOptions.from_override V2.SetterOptions.presence_enables
  refine ⟨?_, ?_, rfl⟩
  · cases v with
    | Inherit => simp
    | Explicit s =>
      cases hs : s.skip with
      | none => simp [hs]
      | some b => cases b <;> simp [hs]
  · cases v with
    | Inherit => simp
    | Explicit s =>
      cases hs : s.skip with
      | none => simp [hs]
      | some b => cases b <;> simp [hs]

/-- C6: the legacy-visibility reconciler returns explicit public when only
the public word is present, explicit private (`Inherited`) when only the
private word is present, no override when neither is present, and fails
fatally when both are present — at both struct level (`as_builder`) and
field level (`as_setter`). -/
theorem legacy_vis_reconciler (s : V2.StructOptions) (f : V2.FieldOptions)
    (hs1 : s.public_marker = some ()) (hs2 : s.private_marker = some ())
    (hf1 : f.public_marker = some ()) (hf2 : f.private_marker = some ()) :
    LegacyVis.to_visibility true false = .ok (some .Public)
    ∧ LegacyVis.to_visibility false true = .ok (some .Inherited)
    ∧ LegacyVis.to_visibility false false = .ok none
    ∧ LegacyVis.to_visibility true true = .error .conflictingVis
    ∧ s.as_builder = .error .conflictingVis
    ∧ f.as_setter = .error .conflictingVis := by
  refine ⟨rfl, rfl, rfl, rfl, ?_, ?_⟩
  · unfold V2.StructOptions.as_builder
    rw [hs1, hs2]
    rfl
  · unfold V2.FieldOptions.as_setter
    rw [hf1, hf2]
    rfl

/-- C6 witness: a struct and a field both carrying the two legacy markers. -/
theorem legacy_vis_reconciler_witness :
    LegacyVis.to_visibility true false = .ok (some .Public)
    ∧ LegacyVis.to_visibility false true = .ok (some .Inherited)
    ∧ LegacyVis.to_visibility false false = .ok none
    ∧ LegacyVis.to_visibility true true = .error .conflictingVis
    ∧ V2.StructOptions.as_builder
        { ident := "Lorem", public_marker := some (),
          private_marker := some () } = .error .conflictingVis
    ∧ V2.FieldOptions.as_setter
        { ident := "foo", ty := "u8", public_marker := some (),
          private_marker := some () } = .error .conflictingVis :=
  legacy_vis_reconciler
    { ident := "Lorem", public_marker := some (), private_marker := some () }
    { ident := "foo", ty := "u8", public_marker := some (),
      private_marker := some () } rfl rfl rfl rfl

/-- A struct whose annotation carries a field-level visibility override but
no legacy marker: the claimed three-level precedence would make the builder
public, the code keeps the declaration's own (inherited) visibility. -/
def c1_struct : V2.StructOptions :=
  { ident := "Lorem", vis := .Inherited, field := some .Public }

/-- A field carrying both the legacy `private` marker and a `field(public)`
override: the claimed precedence would give the builder field the legacy
(private/inherited) visibility, the code gives the override's. -/
def c1_field : V2.FieldOptions :=
  { ident := "foo", ty := "u8", vis := .Public, field := some .Public,
    private_marker := some () }

/-- C1 counterexample: the three-level precedence does not hold everywhere.
`as_builder` ignores the field-level override (a struct with
`field(public)` and inherited declared visibility yields an inherited-
visibility builder, not a public one), and `as_builder_field` ignores the
legacy marker (a field with the legacy `private` marker and `field(public)`
yields a public builder field, not the legacy-resolved private one). -/
theorem visibility_precedence_cex :
    c1_struct.field = some Visibility.Public
    ∧ c1_struct.public_marker = none
    ∧ c1_struct.private_marker = none
    ∧ (c1_struct.as_builder).map V2.Builder.visibility =
        .ok Visibility.Inherited
    ∧ Visibility.Inherited ≠ Visibility.Public
    ∧ c1_field.private_marker = some ()
    ∧ LegacyVis.to_visibility c1_field.public_marker.isSome
        c1_field.private_marker.isSome = .ok (some Visibility.Inherited)
    ∧ (c1_field.as_builder_field).field_visibility = Visibility.Public
    ∧ Visibility.Public ≠ Visibility.Inherited := by
  refine ⟨rfl, rfl, rfl, rfl, by simp, rfl, rfl, rfl, by simp⟩

/-- C1 (amended): `as_builder` resolves the builder's visibility as legacy
marker else the declaration's own visibility, never consulting the
field-level override; `as_builder_field` resolves the builder-field
visibility as the field-level `field(...)` override else the field's
declared visibility, never consulting the legacy markers; `as_setter`
resolves the setter visibility as legacy marker else the field's declared
visibility, never consulting the field-level override. -/
theorem visibility_precedence (s : V2.StructOptions) (f : V2.FieldOptions)
    (pat : BuilderPattern) (h : f.pattern = some pat) :
    (s.as_builder).map V2.Builder.visibility =
      (LegacyVis.to_visibility s.public_marker.isSome
        s.private_marker.isSome).map (fun ov => ov.getD s.vis)
    ∧ (f.as_builder_field).field_visibility = f.field.getD f.vis
    ∧ (f.as_setter).map V2.Setter.visibility =
      (LegacyVis.to_visibility f.public_marker.isSome
        f.private_marker.isSome).map (fun ov => ov.getD f.vis) := by
  refine ⟨?_, rfl, ?_⟩
  · unfold V2.StructOptions.as_builder
    cases hv : LegacyVis.to_visibility s.public_marker.isSome
        s.private_marker.isSome <;> simp [Except.map]
  · unfold V2.FieldOptions.as_setter
    cases hv : LegacyVis.to_visibility f.public_marker.isSome
        f.private_marker.isSome <;> simp [Except.map, h]

/-- C1 witness: the amended precedence at a concrete struct and field. -/
theorem visibility_precedence_witness :
    ((c1_struct.as_builder).map V2.Builder.visibility =
      (LegacyVis.to_visibility c1_struct.public_marker.isSome
        c1_struct.private_marker.isSome).map (fun ov => ov.getD c1_struct.vis))
    ∧ (V2.FieldOptions.as_builder_field
        { c1_field with pattern := some .Owned }).field_visibility =
      ({ c1_field with pattern := some .Owned } :
          V2.FieldOptions).field.getD
        ({ c1_field with pattern := some .Owned } : V2.FieldOptions).vis
    ∧ ((V2.FieldOptions.as_setter
        { c1_field with pattern := some .Owned }).map V2.Setter.visibility =
      (LegacyVis.to_visibility
        ({ c1_field with pattern := some .Owned } :
          V2.FieldOptions).public_marker.isSome
        ({ c1_field with pattern := some .Owned } :
          V2.FieldOptions).private_marker.isSome).map
        (fun ov => ov.getD ({ c1_field with pattern := some .Owned } :
          V2.FieldOptions).vis)) :=
  visibility_precedence c1_struct { c1_field with pattern := some .Owned }
    .Owned rfl

/-- The external `syn` expression parser instantiated to accept every
fragment, for concrete evaluation. -/
def parseAll : String → Option Block := fun s => some ⟨s⟩

/-- C2 counterexample: the macro crate's `parse_block` (cited by the claim)
takes no bindings mode and, on the trait sentinel, emits the fixed
re-export path `::derive_builder::export::Default::default()` — not the
standard-library path the claim requires under the standard bindings
mode. -/
theorem trait_default_path_cex :
    V2.DefaultExpression.parse_block parseAll DefaultExpression.Trait =
      .ok ⟨"::derive_builder::export::Default::default()"⟩
    ∧ Block.mk "::derive_builder::export::Default::default()"
        ≠ Block.mk "::std::default::Default::default()"
    ∧ Block.mk "::derive_builder::export::Default::default()"
        ≠ Block.mk "::core::default::Default::default()" := by
  refine ⟨rfl, by decide, by decide⟩

/-- C2 (amended): only the legacy resolver's `parse_block` chooses between
the std path and the core path based on the `no_std` bindings flag; the
macro crate's `parse_block` emits the fixed path
`::derive_builder::export::Default::default()` independent of any bindings
mode. -/
theorem trait_default_path (pe : String → Option Block) (ns : Bool) :
    V1.DefaultExpression.expr_text ns DefaultExpression.Trait =
      .ok (if ns then "::core::default::Default::default()"
           else "::std::default::Default::default()")
    ∧ V2.DefaultExpression.expr_text DefaultExpression.Trait =
      .ok "::derive_builder::export::Default::default()"
    ∧ V1.DefaultExpression.parse_block pe ns DefaultExpression.Trait =
        (match pe (if ns then "::core::default::Default::default()"
                   else "::std::default::Default::default()") with
         | some b => .ok b
         | none => .error (.defaultParse
             "Couldn't parse default expression `Trait`"))
    ∧ V2.DefaultExpression.parse_block pe DefaultExpression.Trait =
        (match pe "::derive_builder::export::Default::default()" with
         | some b => .ok b
         | none => .error (.defaultParse
             "Couldn't parse default expression `Trait`")) := by
  refine ⟨rfl, rfl, ?_, ?_⟩
  · unfold V1.DefaultExpression.parse_block V1.DefaultExpression.expr_text
    cases ns <;>
      cases hp : pe "::core::default::Default::default()" <;>
      cases hq : pe "::std::default::Default::default()" <;>
      simp [hp, hq, DefaultExpression.reprDebug]
  · unfold V2.DefaultExpression.parse_block V2.DefaultExpression.expr_text
    cases hp : pe "::derive_builder::export::Default::default()" <;>
      simp [hp, DefaultExpression.reprDebug]

/-- C7: in both designs, an explicit empty default expression is a fatal
configuration error, and a non-empty explicit text the external parser
rejects is fatal with a message naming the offending expression. -/
theorem default_expr_errors (pe : String → Option Block) (s : String)
    (ns : Bool) (h1 : s ≠ "") (h2 : pe s = none) :
    V2.DefaultExpression.parse_block pe (.Explicit "") =
      .error .emptyDefaultExpr
    ∧ V1.DefaultExpression.parse_block pe ns (.Explicit "") =
      .error .emptyDefaultExpr
    ∧ V2.DefaultExpression.parse_block pe (.Explicit s) =
        .error (.defaultParse ("Couldn't parse default expression `"
          ++ DefaultExpression.reprDebug (.Explicit s) ++ "`"))
    ∧ V1.DefaultExpression.parse_block pe ns (.Explicit s) =
        .error (.defaultParse ("Couldn't parse default expression `"
          ++ DefaultExpression.reprDebug (.Explicit s) ++ "`"))
    ∧ (∃ pre post, "Couldn't parse default expression `"
          ++ DefaultExpression.reprDebug (.Explicit s) ++ "`"
        = pre ++ (s ++ post)) := by
  have hne : s.isEmpty = false := by
    cases he : s.isEmpty
    · rfl
    · exact absurd ((String.isEmpty_iff s).mp he) h1
  refine ⟨rfl, rfl, ?_, ?_, ?_⟩
  · unfold V2.DefaultExpression.parse_block V2.DefaultExpression.expr_text
    simp [hne, h2]
  · unfold V1.DefaultExpression.parse_block V1.DefaultExpression.expr_text
    simp [hne, h2]
  · refine ⟨"Couldn't parse default expression `" ++ "Explicit(\"",
      "\")" ++ "`", ?_⟩
    simp only [DefaultExpression.reprDebug, String.append_assoc]

/-- C7 witness: the empty explicit default and an unparsable explicit
default, under a parser that rejects everything. -/
theorem default_expr_errors_witness :
    V2.DefaultExpression.parse_block (fun _ => none) (.Explicit "") =
      .error .emptyDefaultExpr
    ∧ V1.DefaultExpression.parse_block (fun _ => none) false (.Explicit "") =
      .error .emptyDefaultExpr
    ∧ V2.DefaultExpression.parse_block (fun _ => none) (.Explicit "1 + ") =
        .error (.defaultParse ("Couldn't parse default expression `"
          ++ DefaultExpression.reprDebug (.Explicit "1 + ") ++ "`"))
    ∧ V1.DefaultExpression.parse_block (fun _ => none) false
        (.Explicit "1 + ") =
        .error (.defaultParse ("Couldn't parse default expression `"
          ++ DefaultExpression.reprDebug (.Explicit "1 + ") ++ "`"))
    ∧ (∃ pre post, "Couldn't parse default expression `"
          ++ DefaultExpression.reprDebug (.Explicit "1 + ") ++ "`"
        = pre ++ ("1 + " ++ post)) :=
  default_expr_errors (fun _ => none) "1 + " false (by decide) rfl

/-- C8: the legacy `as_setter` forwards only the attributes
`should_forward_attr` accepts (the `allow`/`cfg`/`doc` categories), while
`as_builder_field` receives all carried attributes; in particular, with one
`allow` attribute and one unrelated `serde` attribute, only the former
reaches the setter and both reach the builder field. -/
theorem forwarded_attr_filter (f : V1.FieldOptions) :
    (f.as_setter).attrs = f.attrs.filter V1.should_forward_attr
    ∧ (f.as_builder_field).attrs = f.attrs
    ∧ (V1.FieldOptions.as_setter
        { f with attrs := [⟨"allow", "(non_snake_case)"⟩,
                           ⟨"serde", "(rename)"⟩] }).attrs =
        [⟨"allow", "(non_snake_case)"⟩]
    ∧ (V1.FieldOptions.as_builder_field
        { f with attrs := [⟨"allow", "(non_snake_case)"⟩,
                           ⟨"serde", "(rename)"⟩] }).attrs =
        [⟨"allow", "(non_snake_case)"⟩, ⟨"serde", "(rename)"⟩] := by
  refine ⟨rfl, rfl, ?_, rfl⟩
  simp [V1.FieldOptions.as_setter, V1.should_forward_attr, List.filter]

/-- C9: `StructOptions::finish` is total (accumulating a deprecation notice
never fails the expansion) and changes nothing but the deprecation-notes
log, to which it only appends. -/
theorem finish_frame (fsd fpf : Bool) (s : V2.StructOptions) :
    (s.finish fsd fpf).ident = s.ident
    ∧ (s.finish fsd fpf).vis = s.vis
    ∧ (s.finish fsd fpf).generics = s.generics
    ∧ (s.finish fsd fpf).attrs = s.attrs
    ∧ (s.finish fsd fpf).pattern = s.pattern
    ∧ (s.finish fsd fpf).derive = s.derive
    ∧ (s.finish fsd fpf).name = s.name
    ∧ (s.finish fsd fpf).build_fn = s.build_fn
    ∧ (s.finish fsd fpf).setter = s.setter
    ∧ (s.finish fsd fpf).try_setter = s.try_setter
    ∧ (s.finish fsd fpf).default = s.default
    ∧ (s.finish fsd fpf).public_marker = s.public_marker
    ∧ (s.finish fsd fpf).private_marker = s.private_marker
    ∧ (s.finish fsd fpf).field = s.field
    ∧ (s.finish fsd fpf).bindings = s.bindings
    ∧ (∃ added, (s.finish fsd fpf).deprecation_notes =
        s.deprecation_notes ++ added) := by
  unfold V2.StructOptions.finish
  cases fsd <;> cases fpf <;> cases hd : s.default <;> cases hf : s.field <;>
    simp [hd, hf]

/-- C10: after `with_defaults` against any parent the construction pattern
is present — for every field, whether or not a pattern was locally set — so
the missing-pattern panic branches of `as_setter` and `as_initializer` are
unreachable; and likewise for any field whose pattern was locally set, even
without the inheritance step. -/
theorem pattern_panic_unreachable (f : V2.FieldOptions)
    (p : V2.StructOptions) (pe : String → Option Block) :
    ((f.with_defaults p).pattern).isSome = true
    ∧ (f.with_defaults p).as_setter ≠ .error .missingPattern
    ∧ (f.with_defaults p).as_initializer pe ≠ .error .missingPattern
    ∧ (f.pattern.isSome = true →
        f.as_setter ≠ .error .missingPattern
        ∧ f.as_initializer pe ≠ .error .missingPattern) := by
  have hsome : ∀ (g : V2.FieldOptions), g.pattern.isSome = true →
      g.as_setter ≠ .error .missingPattern := by
    intro g hg hcon
    unfold V2.FieldOptions.as_setter at hcon
    rcases hv : LegacyVis.to_visibility g.public_marker.isSome
        g.private_marker.isSome with e | ov
    · have he := to_visibility_error _ _ _ hv
      simp [hv, he] at hcon
    · cases hgp : g.pattern with
      | none => rw [hgp] at hg; simp at hg
      | some q => simp [hv, hgp] at hcon
  have hinit : ∀ (g : V2.FieldOptions), g.pattern.isSome = true →
      g.as_initializer pe ≠ .error .missingPattern := by
    intro g hg hcon
    unfold V2.FieldOptions.as_initializer at hcon
    cases hgp : g.pattern with
    | none => rw [hgp] at hg; simp at hg
    | some q =>
      cases hgd : g.default with
      | none => simp [hgp, hgd] at hcon
      | some d =>
        rcases hpb : V2.DefaultExpression.parse_block pe d with e | b
        · simp [hgp, hgd, hpb] at hcon
          exact parse_block_no_missing pe d (by rw [hpb, hcon])
        · simp [hgp, hgd, hpb] at hcon
  have hpat : ((f.with_defaults p).pattern).isSome = true := by
    rw [with_defaults_eq]
    cases hfp : f.pattern <;> simp [hfp]
  exact ⟨hpat, hsome _ hpat, hinit _ hpat,
    fun hfl => ⟨hsome _ hfl, hinit _ hfl⟩⟩

/-- C10 witness: a field with no local pattern at all, whose pattern comes
solely from `with_defaults` against the parent, and a second field with a
locally set pattern for the implication conjunct. -/
theorem pattern_panic_unreachable_witness :
    ((V2.FieldOptions.with_defaults { ident := "foo", ty := "u8" }
        { ident := "Lorem" }).pattern).isSome = true
    ∧ (V2.FieldOptions.with_defaults { ident := "foo", ty := "u8" }
        { ident := "Lorem" }).as_setter ≠ .error .missingPattern
    ∧ (V2.FieldOptions.with_defaults { ident := "foo", ty := "u8" }
        { ident := "Lorem" }).as_initializer parseAll
        ≠ .error .missingPattern
    ∧ V2.FieldOptions.as_setter
        { ident := "bar", ty := "u8", pattern := some .Owned }
        ≠ .error .missingPattern
    ∧ V2.FieldOptions.as_initializer parseAll
        { ident := "bar", ty := "u8", pattern := some .Owned }
        ≠ .error .missingPattern :=
  ⟨(pattern_panic_unreachable { ident := "foo", ty := "u8" }
      { ident := "Lorem" } parseAll).1,
   (pattern_panic_unreachable { ident := "foo", ty := "u8" }
      { ident := "Lorem" } parseAll).2.1,
   (pattern_panic_unreachable { ident := "foo", ty := "u8" }
      { ident := "Lorem" } parseAll).2.2.1,
   ((pattern_panic_unreachable
      { ident := "bar", ty := "u8", pattern := some .Owned }
      { ident := "Lorem" } parseAll).2.2.2 rfl).1,
   ((pattern_panic_unreachable
      { ident := "bar", ty := "u8", pattern := some .Owned }
      { ident := "Lorem" } parseAll).2.2.2 rfl).2⟩

end DeriveBuilder
